import Mathlib

/-
Formal model of the PJe TJMG scraper service (src/main.py).

The Python source is shallowly embedded: pure string manipulation is
translated into executable Lean functions; the request controller
(`consulta` + `scrape_pje`, with its `async with` / `try ... finally`
structure) is modelled as a state-passing computation whose state counts
browser/semaphore acquisitions and releases.  Python `str` operations are
modelled over `List Char` (ASCII case mapping extended with the accented
letters appearing in the source's regex patterns; `\d`/`\w`/`\s` are
modelled as ASCII digits, alphanumerics-plus-accents, and ASCII
whitespace).
-/

/-! ### Python string primitives -/

/-- Python `\s` character class (ASCII part): space, tab, LF, CR, VT, FF. -/
def isPySpace (c : Char) : Bool :=
  c = ' ' || c = '\t' || c = '\n' || c = '\r' || c = '\x0b' || c = '\x0c'

/-- Accented letters occurring in the source's patterns/labels; used for the
word-character class of `\b` and for case-insensitive matching. -/
def accentLower : List Char := ['á', 'à', 'â', 'ã', 'ç', 'é', 'ê', 'í', 'ó', 'ô', 'õ', 'ú']

def accentUpper : List Char := ['Á', 'À', 'Â', 'Ã', 'Ç', 'É', 'Ê', 'Í', 'Ó', 'Ô', 'Õ', 'Ú']

/-- Lower-casing of one character: ASCII `A`-`Z`, plus the accented uppercase
letters relevant to the source's `re.IGNORECASE` patterns. -/
def lowerChar (c : Char) : Char :=
  if 'A' ≤ c ∧ c ≤ 'Z' then Char.ofNat (c.toNat + 32)
  else if c = 'Á' then 'á' else if c = 'À' then 'à' else if c = 'Â' then 'â'
  else if c = 'Ã' then 'ã' else if c = 'Ç' then 'ç' else if c = 'É' then 'é'
  else if c = 'Ê' then 'ê' else if c = 'Í' then 'í' else if c = 'Ó' then 'ó'
  else if c = 'Ô' then 'ô' else if c = 'Õ' then 'õ' else if c = 'Ú' then 'ú'
  else c

/-- Upper-casing of one character (ASCII), modelling Python `str.upper` on the
inputs the endpoint compares against (`"cpf"`, `"cnpj"`). -/
def upperChar (c : Char) : Char :=
  if 'a' ≤ c ∧ c ≤ 'z' then Char.ofNat (c.toNat - 32) else c

/-- Python `str.lower()`. -/
def pyLower (s : String) : String := String.mk (s.data.map lowerChar)

/-- Python `str.upper()`. -/
def pyUpper (s : String) : String := String.mk (s.data.map upperChar)

/-- Python `str.strip()`: remove leading and trailing whitespace. -/
def pyStrip (s : String) : String :=
  String.mk (((s.data.dropWhile isPySpace).reverse.dropWhile isPySpace).reverse)

/-- Collapse every run of whitespace to a single space
(`re.sub(r"\s+", " ", txt)`). -/
def collapseWs : List Char → List Char
  | [] => []
  | [c] => if isPySpace c then [' '] else [c]
  | c :: d :: rest =>
    if isPySpace c ∧ isPySpace d then collapseWs (d :: rest)
    else (if isPySpace c then ' ' else c) :: collapseWs (d :: rest)

/-- `_norm` from src/main.py line 22: collapse whitespace runs, then strip. -/
def pyNorm (s : String) : String := pyStrip (String.mk (collapseWs s.data))

/-- `sanitize_doc` from src/main.py line 25: `re.sub(r"\D+", "", doc)`,
i.e. keep only the digit characters. -/
def sanitize_doc (doc : String) : String := String.mk (doc.data.filter Char.isDigit)

/-- Substring containment (`k in low` in Python). -/
def containsSub (n : List Char) : List Char → Bool
  | [] => n.isEmpty
  | c :: rest => n.isPrefixOf (c :: rest) || containsSub n rest

/-! ### Model of `UNWANTED_RE` (src/main.py lines 15-20)

`UNWANTED_RE.search(s)` with `re.IGNORECASE`.  The input is lower-cased and
each alternative of the pattern is tried at every start position. -/

/-- Word character for `\b` (Python `\w`, restricted to ASCII alphanumerics,
underscore, and the accented letters above). -/
def isWordChar (c : Char) : Bool :=
  c.isAlphanum || c = '_' || accentLower.contains c || accentUpper.contains c

/-- A word boundary sits between the end of a literal and `s`:
either end of input or a non-word character. -/
def boundaryNext (s : List Char) : Bool :=
  match s with
  | [] => true
  | c :: _ => !(isWordChar c)

/-- Consume a literal, returning the remainder. -/
def litM (w : List Char) (s : List Char) : Option (List Char) :=
  if w.isPrefixOf s then some (s.drop w.length) else none

/-- Consume `\s+` (one or more whitespace characters, greedily; all following
pattern pieces in `UNWANTED_RE` begin with a non-space letter, so greedy
consumption is equivalent). -/
def ws1 (s : List Char) : Option (List Char) :=
  match s with
  | c :: rest => if isPySpace c then some (rest.dropWhile isPySpace) else none
  | [] => none

/-- `documentos?\s+juntados`; the optional `s` is deterministic because `\s+`
cannot match a letter `s`. -/
def altDocJuntados (s : List Char) : Bool :=
  match litM "documento".data s with
  | none => false
  | some r =>
    let r2 := match r with
      | 's' :: rest => rest
      | _ => r
    match ws1 r2 with
    | none => false
    | some r3 => "juntados".data.isPrefixOf r3

/-- `documento\b`. -/
def altDocumentoB (s : List Char) : Bool :=
  match litM "documento".data s with
  | none => false
  | some r => boundaryNext r

/-- `certid[aã]o`. -/
def altCertidao (s : List Char) : Bool :=
  match litM "certid".data s with
  | none => false
  | some r =>
    match r with
    | c :: rest => (c = 'a' || c = 'ã') && "o".data.isPrefixOf rest
    | [] => false

/-- `indispon[ií]vel`. -/
def altIndisponivel (s : List Char) : Bool :=
  match litM "indispon".data s with
  | none => false
  | some r =>
    match r with
    | c :: rest => (c = 'i' || c = 'í') && "vel".data.isPrefixOf rest
    | [] => false

/-- `aplicativo\s+pjeoffice`. -/
def altAplicativo (s : List Char) : Bool :=
  match litM "aplicativo".data s with
  | none => false
  | some r =>
    match ws1 r with
    | none => false
    | some r2 => "pjeoffice".data.isPrefixOf r2

/-- `página\b`. -/
def altPagina (s : List Char) : Bool :=
  match litM "página".data s with
  | none => false
  | some r => boundaryNext r

/-- `resultados?\s+encontrados`. -/
def altResultados (s : List Char) : Bool :=
  match litM "resultado".data s with
  | none => false
  | some r =>
    let r2 := match r with
      | 's' :: rest => rest
      | _ => r
    match ws1 r2 with
    | none => false
    | some r3 => "encontrados".data.isPrefixOf r3

/-- One alternative of `UNWANTED_RE` matches at this position. -/
def unwantedAt (s : List Char) : Bool :=
  altDocJuntados s || altDocumentoB s || altCertidao s ||
  "visualizar".data.isPrefixOf s || "pjeoffice".data.isPrefixOf s ||
  altIndisponivel s || altAplicativo s || altPagina s || altResultados s ||
  "recibo".data.isPrefixOf s

/-- Try every start position (`re.search`). -/
def unwantedSearch : List Char → Bool
  | [] => false
  | c :: rest => unwantedAt (c :: rest) || unwantedSearch rest

/-- `UNWANTED_RE.search(s)` as a Boolean, with `re.IGNORECASE` modelled by
lower-casing the input (the pattern itself is lower-case). -/
def unwanted (s : String) : Bool := unwantedSearch (pyLower s).data

/-! ### Model of `CNJ_RE` (src/main.py line 13)

`re.compile(r"\b\d{7}-\d{2}\.\d{4}\.\d\.\d{2}\.\d{4}\b")` and its
`findall` (left-to-right, non-overlapping).  A match is exactly 25
characters long. -/

/-- Consume exactly `n` digits. -/
def digitsN : Nat → List Char → Option (List Char)
  | 0, s => some s
  | n + 1, c :: rest => if c.isDigit then digitsN n rest else none
  | _ + 1, [] => none

/-- Consume one expected character. -/
def chomp (c : Char) : List Char → Option (List Char)
  | d :: rest => if d = c then some rest else none
  | [] => none

/-- The digit/separator shape of a CNJ number
(`\d{7}-\d{2}\.\d{4}\.\d\.\d{2}\.\d{4}`), returning the remainder. -/
def cnjShape (s : List Char) : Option (List Char) :=
  (digitsN 7 s).bind (fun r => (chomp '-' r).bind (fun r =>
    (digitsN 2 r).bind (fun r => (chomp '.' r).bind (fun r =>
      (digitsN 4 r).bind (fun r => (chomp '.' r).bind (fun r =>
        (digitsN 1 r).bind (fun r => (chomp '.' r).bind (fun r =>
          (digitsN 2 r).bind (fun r => (chomp '.' r).bind (fun r =>
            digitsN 4 r))))))))))

/-- Left-to-right non-overlapping scan.  `prevW` records whether the previous
character is a word character (for the leading `\b`); the fuel argument is
the input length, enough for a scan that always consumes at least one
character per step. -/
def cnjScan : Nat → Bool → List Char → List String
  | 0, _, _ => []
  | _ + 1, _, [] => []
  | fuel + 1, prevW, c :: rest =>
    match cnjShape (c :: rest) with
    | some r =>
      if prevW = false ∧ boundaryNext r then
        String.mk ((c :: rest).take 25) :: cnjScan fuel true r
      else cnjScan fuel (isWordChar c) rest
    | none => cnjScan fuel (isWordChar c) rest

/-- `CNJ_RE.findall(txt)`. -/
def cnj_findall (txt : String) : List String := cnjScan txt.data.length false txt.data

/-! ### `unique_preserve_order` (src/main.py lines 142-149)

The Python `seen` set is modelled by a list used only through membership. -/

def upoGo (seen : List String) : List String → List String
  | [] => []
  | v :: rest => if v ∈ seen then upoGo seen rest else v :: upoGo (v :: seen) rest

def unique_preserve_order (values : List String) : List String := upoGo [] values

/-! ### `extract_metadata` (src/main.py lines 164-195) -/

/-- `any(k in low for k in keys_l)` where `low = ln.lower()` and
`keys_l = [k.lower() for k in keys]`. -/
def keyMatches (keys : List String) (ln : String) : Bool :=
  keys.any (fun k => containsSub (pyLower k).data (pyLower ln).data)

/-- Split at the first `:` (`ln.split(":", 1)`), returning the part after it. -/
def splitColonOnce : List Char → Option (List Char)
  | [] => none
  | c :: rest => if c = ':' then some rest else splitColonOnce rest

/-- The candidate value from the matching line itself:
`parts = ln.split(":", 1)`, then `parts[1].strip()` when the split has two
parts and the stripped value is non-empty. -/
def colonValue (ln : String) : Option String :=
  match splitColonOnce ln.data with
  | none => none
  | some tl =>
    let v := pyStrip (String.mk tl)
    if v = "" then none else some v

/-- `body.split("\n")` (structural, so that it evaluates by reduction):
splitting on every newline, keeping empty segments. -/
def splitNlChars : List Char → List (List Char)
  | [] => [[]]
  | c :: rest =>
    if c = '\n' then [] :: splitNlChars rest
    else
      match splitNlChars rest with
      | [] => [[c]]
      | seg :: segs => (c :: seg) :: segs

def splitNl (s : String) : List String := (splitNlChars s.data).map String.mk

/-- The inner `find(keys)` of `extract_metadata` (src/main.py lines 173-187):
scan the lines; at a keyword hit, return the colon value if present and not
noise; else return the following line if present and not noise; else keep
scanning. -/
def meta_find (keys : List String) : List String → Option String
  | [] => none
  | ln :: rest =>
    if keyMatches keys ln then
      let nextLine : Option String :=
        match rest with
        | [] => none
        | nxt :: _ => if unwanted nxt = false then some nxt else none
      match colonValue ln with
      | some v =>
        if unwanted v = false then some v
        else
          match nextLine with
          | some x => some x
          | none => meta_find keys rest
      | none =>
        match nextLine with
        | some x => some x
        | none => meta_find keys rest
    else meta_find keys rest

structure Metadata where
  assunto : Option String
  classe_judicial : Option String
  data_distribuicao : Option String
  orgao_julgador : Option String
  jurisdicao : Option String
deriving DecidableEq, Repr

/-- `extract_metadata` over the popup body text:
`lines = [_norm(ln) for ln in body.split("\n") if ln.strip()]`, then one
`find` per label. -/
def extract_metadata (body : String) : Metadata :=
  let lines := ((splitNl body).filter (fun ln => pyStrip ln ≠ "")).map pyNorm
  { assunto := meta_find ["assunto"] lines
    classe_judicial := meta_find ["classe judicial", "classe"] lines
    data_distribuicao := meta_find ["distribuição"] lines
    orgao_julgador := meta_find ["órgão julgador"] lines
    jurisdicao := meta_find ["jurisdição", "comarca"] lines }

/-! ### `extract_movements` (src/main.py lines 198-223)

`rows` is the list of `inner_text` values of the `tr` locators; the loop
scans at most 140 rows, keeps normalized texts longer than 10 characters
that pass the noise filter and are not duplicates, and the result is
truncated to 10. -/

def movFilter (seen : List String) : List String → List String
  | [] => []
  | r :: rest =>
    let txt := pyNorm r
    if 10 < txt.length ∧ unwanted txt = false ∧ txt ∉ seen then
      txt :: movFilter (txt :: seen) rest
    else movFilter seen rest

def extract_movements (rows : List String) : List String :=
  (movFilter [] (rows.take 140)).take 10

/-! ### Lookup cache (src/main.py lines 38-39, 410-425)

`_cache: Dict[str, Dict[str, Any]]` with entries `{"ts": now, "data": data}`;
the read path is `if cache_key in _cache and (now - item["ts"]) < CACHE_TTL:
return item["data"]`.  Timestamps (`time.time()`) are modelled as rationals;
the dictionary is modelled as an association list with overwrite-on-put. -/

def CACHE_TTL : ℚ := 300

abbrev Cache (α : Type) : Type := List (String × ℚ × α)

def cache_lookup {α : Type} : Cache α → String → Option (ℚ × α)
  | [], _ => none
  | (k', t, v) :: rest, k => if k' = k then some (t, v) else cache_lookup rest k

/-- The cache read of `consulta` (lines 413-416): return the payload only when
the entry exists and `now - ts < CACHE_TTL`. -/
def cache_get {α : Type} (c : Cache α) (k : String) (now : ℚ) : Option α :=
  match cache_lookup c k with
  | none => none
  | some (t, v) => if now - t < CACHE_TTL then some v else none

/-- The cache write of `consulta` (line 424):
`_cache[cache_key] = {"ts": now, "data": data}`. -/
def cache_put {α : Type} (c : Cache α) (k : String) (t : ℚ) (v : α) : Cache α :=
  (k, t, v) :: c.filter (fun e => e.1 ≠ k)

/-! ### Data model of the scrape result (src/main.py lines 264-270, 352-374) -/

/-- One entry of `result["processos"]`: either an error-tagged stub
(`{"numero": cnj, "erro": ...}`) or a full record with metadata and
movements. -/
inductive Processo where
  | errStub (numero : String) (erro : String)
  | full (numero : String) (meta : Metadata) (movimentacoes : List String)
deriving DecidableEq, Repr

def Processo.numero : Processo → String
  | .errStub n _ => n
  | .full n _ _ => n

/-- The `result` dictionary built by `scrape_pje` (the constant `timestamp`
field carries no verified content and is omitted). -/
structure ScrapeResult where
  documento : String
  tipo : String
  processos : List Processo
  aviso_site : Option (List String)
  erro_interno : Option String
deriving DecidableEq, Repr

/-! ### Environment describing the external browser/site behaviour

The browser-automation library and the target website are uncontrolled
external collaborators; their observable behaviour at each step of
`scrape_pje` is an input to the model. -/

/-- External behaviour when one case's detail view is processed. -/
structure CnjEnv where
  clickable : Bool
  popupOpens : Bool
  popupBody : String
  rows : List String
deriving Repr

def defaultCnjEnv : CnjEnv := ⟨true, true, "", []⟩

/-- External behaviour of the steps inside the `try` block of `scrape_pje`
(lines 285-374). `interruptAt`/`interruptMsg` model an exception raised at
the start of loop iteration `i` (e.g. `popup.close()` or `rows.count()`
failing). -/
structure BodyEnv where
  inputFound1 : Bool
  inputFound2 : Bool
  submitRaises : Option String
  frameTexts : List String
  errorBanner : List String
  cases : List CnjEnv
  interruptAt : Option Nat
  interruptMsg : String
deriving Repr

/-- `pick_results_frame` (lines 123-139): choose the frame text with the
strictly largest number of CNJ matches; `None` when every count is zero. -/
def pick_results_frame (texts : List String) : Option String :=
  (texts.foldl
    (fun best t =>
      let n := (cnj_findall t).length
      if n > best.2 then (some t, n) else best)
    ((none : Option String), 0)).1

/-- One iteration of the per-CNJ loop (lines 352-372): every branch appends
exactly one record whose `numero` is the CNJ being processed. -/
def case_record (cnj : String) (ce : CnjEnv) : Processo :=
  if ce.clickable = false then Processo.errStub cnj "clickable_nao_encontrado"
  else if ce.popupOpens = false then Processo.errStub cnj "popup_bloqueado_ou_mesma_aba"
  else Processo.full cnj (extract_metadata ce.popupBody) (extract_movements ce.rows)

/-- The `for cnj in cnjs[:25]` loop; returns the records accumulated before an
interrupting exception (if any) together with the exception message. -/
def process_loop (env : BodyEnv) : List String → Nat → List Processo × Option String
  | [], _ => ([], none)
  | cnj :: rest, i =>
    if env.interruptAt = some i then ([], some env.interruptMsg)
    else
      let pr := process_loop env rest (i + 1)
      (case_record cnj (env.cases.getD i defaultCnjEnv) :: pr.1, pr.2)

/-- The site-warning branch (lines 337-340 and 346-349):
`msg = ...all_inner_texts(); if msg: result["aviso_site"] = msg`. -/
def avisoOf (env : BodyEnv) : Option (List String) :=
  if env.errorBanner = [] then none else some env.errorBanner

/-- The body of the `try` block of `scrape_pje` (lines 285-374), as the pair
of the `result` value at exit and the raised exception message (if the body
raised).  The raising branches are: input not found before/after selecting
the radio type (lines 291-292, 300-301), a failure while submitting, and an
interruption inside the per-CNJ loop. -/
def scrape_body (doc_digits doc_type : String) (env : BodyEnv) :
    ScrapeResult × Option String :=
  let base : ScrapeResult :=
    { documento := doc_digits, tipo := doc_type, processos := []
      aviso_site := none, erro_interno := none }
  if env.inputFound1 = false then
    (base, some "Input de CPF/CNPJ não encontrado na página.")
  else if env.inputFound2 = false then
    (base, some "Input de CPF/CNPJ não encontrado após selecionar o tipo.")
  else
    match env.submitRaises with
    | some msg => (base, some msg)
    | none =>
      match pick_results_frame env.frameTexts with
      | none => ({ base with aviso_site := avisoOf env }, none)
      | some txt =>
        let cnjs := unique_preserve_order (cnj_findall txt)
        if cnjs = [] then ({ base with aviso_site := avisoOf env }, none)
        else
          let pr := process_loop env (cnjs.take 25) 0
          ({ base with processos := pr.1 }, pr.2)

/-- The value `scrape_pje` hands back on every non-cancelled path: a body
exception is caught by `except Exception as e` (line 376), which stores
`str(e)` into `result["erro_interno"]` and returns the partial result. -/
def scrape_result_of (doc_digits doc_type : String) (env : BodyEnv) : ScrapeResult :=
  match scrape_body doc_digits doc_type env with
  | (r, none) => r
  | (r, some msg) => { r with erro_interno := some msg }

/-! ### Resource-counting execution model of `consulta` + `scrape_pje`

`async with SEMA` and `async with async_playwright()` are modelled as
bracket combinators that always run their release action once the resource
was acquired; `try/finally` is modelled likewise.  A deadline expiry
(`asyncio.wait_for(..., timeout=180)`) cancels the task: the resulting
`CancelledError` is *not* an `Exception` in Python ≥ 3.8, so it is not
caught by the `except Exception` handler of `scrape_pje`, but `finally`
blocks and `async with` exits still run.  Exiting the
`async with async_playwright()` context stops the Playwright driver, which
closes any browser still launched through it (documented Playwright
behaviour); this is the `stopPlaywright` action below. -/

/-- Resource counters for one request. -/
structure RState where
  browserLaunched : Nat
  browserClosed : Nat
  browserOpen : Bool
  slotAcquired : Nat
  slotReleased : Nat
  slotHeld : Bool
deriving DecidableEq, Repr

def RState.init : RState := ⟨0, 0, false, 0, 0, false⟩

/-- What escapes a step: a Python exception or a task cancellation. -/
inductive Exn where
  | py (msg : String)
  | cancelled
deriving DecidableEq, Repr

/-- State-passing computation over the resource counters. -/
def M (α : Type) : Type := RState → Except Exn α × RState

def mseq {α : Type} (x : M Unit) (y : M α) : M α := fun s =>
  match x s with
  | (.ok _, s') => y s'
  | (.error e, s') => (.error e, s')

/-- `try body finally cleanup`: the cleanup runs whether the body returned or
raised, and the body's outcome is then propagated. -/
def tryFinallyM {α : Type} (body : M α) (cleanup : M Unit) : M α := fun s =>
  match body s with
  | (.ok a, s') =>
    (match cleanup s' with
     | (.ok _, s'') => (.ok a, s'')
     | (.error e, s'') => (.error e, s''))
  | (.error e, s') =>
    (match cleanup s' with
     | (.ok _, s'') => (.error e, s'')
     | (.error e2, s'') => (.error e2, s''))

/-- Outcome of an external step that the model does not decompose further:
it completes, raises a Python exception, or is interrupted by the
cancellation of the surrounding task. -/
inductive StepRes where
  | ok
  | fails (msg : String)
  | cancel
deriving DecidableEq, Repr

def stepRun (r : StepRes) (onOk : M Unit) : M Unit := fun s =>
  match r with
  | .ok => onOk s
  | .fails msg => (.error (.py msg), s)
  | .cancel => (.error .cancelled, s)

/-- `browser = await p.chromium.launch(...)` succeeded. -/
def launchB : M Unit := fun s =>
  (.ok (), { s with browserLaunched := s.browserLaunched + 1, browserOpen := true })

def skipM : M Unit := fun s => (.ok (), s)

/-- `await browser.close()`: closes the browser if it is still open
(closing an already-closed browser is a no-op and releases nothing). -/
def closeBrowser : M Unit := fun s =>
  if s.browserOpen then
    (.ok (), { s with browserClosed := s.browserClosed + 1, browserOpen := false })
  else (.ok (), s)

/-- Exiting `async with async_playwright()`: stopping the driver closes any
browser still open. -/
def stopPlaywright : M Unit := closeBrowser

def acquireSlot : M Unit := fun s =>
  (.ok (), { s with slotAcquired := s.slotAcquired + 1, slotHeld := true })

def releaseSlot : M Unit := fun s =>
  (.ok (), { s with slotReleased := s.slotReleased + 1, slotHeld := false })

/-- `async with SEMA:`: if the acquisition itself is cancelled (deadline
expiring while queued), the slot was never taken and the exit action does
not run; otherwise the release is guaranteed. -/
def withSlot {α : Type} (acqCancelled : Bool) (body : M α) : M α := fun s =>
  if acqCancelled then (.error .cancelled, s)
  else tryFinallyM body releaseSlot (acquireSlot s).2

/-- External behaviour of one whole `scrape_pje` call. -/
structure ScrapeEnv where
  launchStep : StepRes
  ctxStep : StepRes
  cancelDuringBody : Bool
  body : BodyEnv
deriving Repr

/-- The `try ... except Exception ... finally` block of `scrape_pje`:
a cancellation escapes (it is not an `Exception`), a Python exception is
absorbed into the returned result by the handler. -/
def tryBlock (doc_digits doc_type : String) (env : ScrapeEnv) : M ScrapeResult := fun s =>
  if env.cancelDuringBody then (.error .cancelled, s)
  else (.ok (scrape_result_of doc_digits doc_type env.body), s)

/-- `scrape_pje` (lines 264-381).  Structure:
`async with async_playwright()` ≙ outer `tryFinallyM _ stopPlaywright`;
`browser = launch(...)`, `context = browser.new_context(...)` run *before*
the `try` statement (lines 272-282); the `try/except/finally` wraps only the
body, with `finally: await browser.close()`. -/
def scrape_pje_m (doc_digits doc_type : String) (env : ScrapeEnv) : M ScrapeResult :=
  tryFinallyM
    (mseq (stepRun env.launchStep launchB)
      (mseq (stepRun env.ctxStep skipM)
        (tryFinallyM (tryBlock doc_digits doc_type env) closeBrowser)))
    stopPlaywright

/-- HTTP-level outcome of `consulta`. -/
inductive Resp where
  | ok (data : ScrapeResult)
  | err (status : Nat) (detail : String)
deriving DecidableEq, Repr

/-- External behaviour of one `consulta` request past validation. -/
structure ReqEnv where
  slotCancelled : Bool
  scrape : ScrapeEnv
deriving Repr

/-- `asyncio.wait_for(_run(), timeout=180)` — the overall wall-clock deadline
in seconds (line 423). -/
def WAIT_FOR_TIMEOUT : ℕ := 180

/-- `consulta` past validation (lines 410-430): cache check, then
`_run = async with SEMA: scrape_pje(...)` under `asyncio.wait_for`;
on success the result is cached and returned; `asyncio.TimeoutError`
becomes HTTP 504 and any other exception becomes HTTP 500. -/
def consulta_m (c : Cache ScrapeResult) (doc_digits doc_type : String) (now : ℚ)
    (env : ReqEnv) : Resp × Cache ScrapeResult × RState :=
  let cache_key := doc_digits ++ "_" ++ doc_type
  match cache_get c cache_key now with
  | some d => (.ok d, c, RState.init)
  | none =>
    match withSlot env.slotCancelled (scrape_pje_m doc_digits doc_type env.scrape) RState.init with
    | (.ok data, s1) => (.ok data, cache_put c cache_key now data, s1)
    | (.error .cancelled, s1) =>
      (.err 504 "Tempo limite excedido (Site do Tribunal lento)", c, s1)
    | (.error (.py msg), s1) => (.err 500 msg, c, s1)

/-! ### Parameter validation of `consulta` (src/main.py lines 392-408) -/

/-- The validation prefix of `consulta`: sanitize the document, normalize and
check the declared type, then check the digit count for the declared type.
Returns the sanitized digits and normalized type, or the `HTTPException`
status and detail. -/
def consulta_validate (doc tipo : String) : Except (Nat × String) (String × String) :=
  let doc_digits := sanitize_doc doc
  let dt0 := pyUpper (pyStrip tipo)
  let dtE : Except (Nat × String) String :=
    if dt0 = "CPF" ∨ dt0 = "CNPJ" then Except.ok dt0
    else if pyLower (pyStrip tipo) = "cpf" ∨ pyLower (pyStrip tipo) = "cnpj" then
      Except.ok (pyUpper (pyStrip tipo))
    else Except.error (400, "Tipo inválido (use cpf ou cnpj)")
  match dtE with
  | .error e => .error e
  | .ok doc_type =>
    if doc_type = "CPF" ∧ doc_digits.length ≠ 11 then
      .error (400, "CPF inválido (deve ter 11 dígitos)")
    else if doc_type = "CNPJ" ∧ doc_digits.length ≠ 14 then
      .error (400, "CNPJ inválido (deve ter 14 dígitos)")
    else .ok (doc_digits, doc_type)

/-- The list of deduplicated CNJ numbers the per-case loop iterates over,
as a function of the body environment (empty when no results frame was
picked). -/
def cnjs_of (env : BodyEnv) : List String :=
  match pick_results_frame env.frameTexts with
  | none => []
  | some txt => unique_preserve_order (cnj_findall txt)

/-! ### Concrete environments used to evaluate the model at specific inputs -/

/-- A body environment in which the CPF/CNPJ input field is never located
(line 291-292 of src/main.py raises). -/
def c1Body : BodyEnv :=
  { inputFound1 := false, inputFound2 := true, submitRaises := none
    frameTexts := [], errorBanner := [], cases := []
    interruptAt := none, interruptMsg := "" }

def c1Req : ReqEnv :=
  { slotCancelled := false
    scrape := { launchStep := .ok, ctxStep := .ok, cancelDuringBody := false, body := c1Body } }

/-- The result `scrape_pje` returns when the input field is not found: the
exception is caught and stored into `erro_interno`. -/
def c1Result : ScrapeResult :=
  { documento := "12345678901", tipo := "CPF", processos := [], aviso_site := none
    erro_interno := some "Input de CPF/CNPJ não encontrado na página." }

/-- A benign body environment (nothing found, no failures). -/
def c3Body : BodyEnv :=
  { inputFound1 := true, inputFound2 := true, submitRaises := none
    frameTexts := [], errorBanner := [], cases := []
    interruptAt := none, interruptMsg := "" }

/-! ### Helper lemmas -/

theorem upoGo_mem (l : List String) : ∀ (seen : List String) (x : String),
    x ∈ upoGo seen l ↔ x ∈ l ∧ x ∉ seen := by
  induction l with
  | nil => intro seen x; simp [upoGo]
  | cons v rest ih =>
    intro seen x
    by_cases hv : v ∈ seen
    · rw [upoGo, if_pos hv, ih]
      constructor
      · rintro ⟨h1, h2⟩; exact ⟨List.mem_cons_of_mem _ h1, h2⟩
      · rintro ⟨h1, h2⟩
        rcases List.mem_cons.mp h1 with h | h
        · subst h; exact absurd hv h2
        · exact ⟨h, h2⟩
    · rw [upoGo, if_neg hv]
      constructor
      · intro hx
        rcases List.mem_cons.mp hx with h | h
        · subst h; exact ⟨List.mem_cons_self _ _, hv⟩
        · obtain ⟨h1, h2⟩ := (ih (v :: seen) x).mp h
          exact ⟨List.mem_cons_of_mem _ h1, fun hs => h2 (List.mem_cons_of_mem _ hs)⟩
      · rintro ⟨h1, h2⟩
        rcases List.mem_cons.mp h1 with h | h
        · subst h; exact List.mem_cons_self _ _
        · by_cases hxv : x = v
          · subst hxv; exact List.mem_cons_self _ _
          · refine List.mem_cons_of_mem _ ((ih (v :: seen) x).mpr ⟨h, ?_⟩)
            intro hs
            rcases List.mem_cons.mp hs with hh | hh
            · exact hxv hh
            · exact h2 hh

theorem upoGo_nodup (l : List String) : ∀ seen : List String, (upoGo seen l).Nodup := by
  induction l with
  | nil => intro seen; simp [upoGo]
  | cons v rest ih =>
    intro seen
    by_cases hv : v ∈ seen
    · rw [upoGo, if_pos hv]; exact ih seen
    · rw [upoGo, if_neg hv]
      refine List.nodup_cons.mpr ⟨?_, ih _⟩
      intro hmem
      exact ((upoGo_mem rest _ v).mp hmem).2 (List.mem_cons_self _ _)

theorem upoGo_sublist (l : List String) : ∀ seen : List String,
    List.Sublist (upoGo seen l) l := by
  induction l with
  | nil => intro seen; simp [upoGo]
  | cons v rest ih =>
    intro seen
    by_cases hv : v ∈ seen
    · rw [upoGo, if_pos hv]; exact (ih seen).cons v
    · rw [upoGo, if_neg hv]; exact (ih (v :: seen)).cons₂ v

theorem movFilter_mem (l : List String) : ∀ (seen : List String) (x : String),
    x ∈ movFilter seen l → x ∉ seen ∧ 10 < x.length ∧ unwanted x = false := by
  induction l with
  | nil => intro seen x h; simp [movFilter] at h
  | cons r rest ih =>
    intro seen x h
    rw [movFilter] at h
    by_cases hc : 10 < (pyNorm r).length ∧ unwanted (pyNorm r) = false ∧ pyNorm r ∉ seen
    · rw [if_pos hc] at h
      rcases List.mem_cons.mp h with h | h
      · subst h; exact ⟨hc.2.2, hc.1, hc.2.1⟩
      · have h2 := ih _ _ h
        exact ⟨fun hs => h2.1 (List.mem_cons_of_mem _ hs), h2.2⟩
    · rw [if_neg hc] at h; exact ih _ _ h

theorem movFilter_nodup (l : List String) : ∀ seen : List String,
    (movFilter seen l).Nodup := by
  induction l with
  | nil => intro seen; simp [movFilter]
  | cons r rest ih =>
    intro seen
    rw [movFilter]
    by_cases hc : 10 < (pyNorm r).length ∧ unwanted (pyNorm r) = false ∧ pyNorm r ∉ seen
    · rw [if_pos hc]
      refine List.nodup_cons.mpr ⟨?_, ih _⟩
      intro hmem
      exact (movFilter_mem rest _ _ hmem).1 (List.mem_cons_self _ _)
    · rw [if_neg hc]; exact ih seen

theorem case_record_numero (cnj : String) (ce : CnjEnv) :
    (case_record cnj ce).numero = cnj := by
  by_cases h1 : ce.clickable = false
  · simp [case_record, h1, Processo.numero]
  · by_cases h2 : ce.popupOpens = false <;>
      simp [case_record, h1, h2, Processo.numero]

theorem process_loop_map (env : BodyEnv) (l : List String) :
    ∀ i : Nat, ∃ n : Nat,
      (process_loop env l i).1.map Processo.numero = l.take n := by
  induction l with
  | nil => intro i; exact ⟨0, by simp [process_loop]⟩
  | cons cnj rest ih =>
    intro i
    by_cases hint : env.interruptAt = some i
    · exact ⟨0, by simp [process_loop, hint]⟩
    · obtain ⟨n, hn⟩ := ih (i + 1)
      refine ⟨n + 1, ?_⟩
      simp [process_loop, hint, case_record_numero, hn]

theorem scrape_result_processos_eq (d t : String) (env : BodyEnv) :
    (scrape_result_of d t env).processos = (scrape_body d t env).1.processos := by
  unfold scrape_result_of
  rcases h : scrape_body d t env with ⟨r, e⟩
  cases e <;> simp

theorem scrape_body_processos (d t : String) (env : BodyEnv) :
    ∃ n : Nat, (scrape_body d t env).1.processos.map Processo.numero =
      ((cnjs_of env).take 25).take n := by
  unfold scrape_body
  by_cases h1 : env.inputFound1 = false
  · exact ⟨0, by simp [h1]⟩
  · by_cases h2 : env.inputFound2 = false
    · exact ⟨0, by simp [h1, h2]⟩
    · cases hs : env.submitRaises with
      | some msg => exact ⟨0, by simp [h1, h2, hs]⟩
      | none =>
        cases hp : pick_results_frame env.frameTexts with
        | none => exact ⟨0, by simp [h1, h2, hs, hp]⟩
        | some txt =>
          by_cases hc : unique_preserve_order (cnj_findall txt) = []
          · exact ⟨0, by simp [h1, h2, hs, hp, hc]⟩
          · obtain ⟨n, hn⟩ := process_loop_map env
              ((unique_preserve_order (cnj_findall txt)).take 25) 0
            refine ⟨n, ?_⟩
            simp [h1, h2, hs, hp, hc, cnjs_of, hn]

theorem cnjs_of_nodup (env : BodyEnv) : (cnjs_of env).Nodup := by
  unfold cnjs_of
  cases pick_results_frame env.frameTexts with
  | none => simp
  | some txt => exact upoGo_nodup _ []

/-! ### Claim theorems -/

/-- Claim C4: for every key `k` and payload `v`, after `put(k, v)` a `get(k)`
returns `v` exactly when the elapsed time since the entry's created-at
timestamp is strictly less than the TTL (300 seconds); once the elapsed time
is at or past the TTL, `get(k)` behaves as absent. -/
theorem claim_C4_cache_ttl (α : Type) (c : Cache α) (k : String) (t now : ℚ) (v : α) :
    CACHE_TTL = 300 ∧
    cache_get (cache_put c k t v) k now =
      (if now - t < CACHE_TTL then some v else none) := by
  refine ⟨rfl, ?_⟩
  simp [cache_get, cache_put, cache_lookup]

/-- Claim C7: `unique_preserve_order` removes duplicates by value while
preserving first-occurrence order (its output is duplicate-free, is a
sublist of the input — hence in input order — and keeps exactly the input's
values), and consequently the `processos` list of every scrape result has
pairwise distinct case numbers. -/
theorem claim_C7_unique_case_numbers (l : List String) (d t : String) (env : BodyEnv) :
    (unique_preserve_order l).Nodup ∧
    List.Sublist (unique_preserve_order l) l ∧
    (∀ x : String, x ∈ unique_preserve_order l ↔ x ∈ l) ∧
    ((scrape_result_of d t env).processos.map Processo.numero).Nodup := by
  refine ⟨upoGo_nodup l [], upoGo_sublist l [], ?_, ?_⟩
  · intro x
    rw [unique_preserve_order, upoGo_mem]
    simp
  · rw [scrape_result_processos_eq]
    obtain ⟨n, hn⟩ := scrape_body_processos d t env
    rw [hn]
    exact ((List.take_sublist _ _).trans (List.take_sublist _ _)).nodup (cnjs_of_nodup env)

/-- Claim C9: at most 25 CaseRecords appear in any scrape result — the
per-case loop only processes `cnjs[:25]`, a prefix of the deduplicated CNJ
numbers found on the chosen results frame, and further case numbers are
omitted. -/
theorem claim_C9_at_most_25 (d t : String) (env : BodyEnv) :
    (scrape_result_of d t env).processos.length ≤ 25 ∧
    ∃ n : Nat, (scrape_result_of d t env).processos.map Processo.numero =
      ((cnjs_of env).take 25).take n := by
  obtain ⟨n, hn⟩ := scrape_body_processos d t env
  have hmap : (scrape_result_of d t env).processos.map Processo.numero =
      ((cnjs_of env).take 25).take n := by
    rw [scrape_result_processos_eq]; exact hn
  constructor
  · have hlen : (scrape_result_of d t env).processos.length =
        (((cnjs_of env).take 25).take n).length := by
      rw [← hmap, List.length_map]
    rw [hlen]
    simp [List.length_take]
  · exact ⟨n, hmap⟩

/-- Claim C10: every movement list contains at most 10 entries: at most 140
rows are scanned, a row is kept only when its normalized text exceeds 10
characters, passes the noise filter and is not an exact duplicate, and the
result is truncated to its first 10 elements. -/
theorem claim_C10_movements (rows : List String) :
    (extract_movements rows).length ≤ 10 ∧
    (extract_movements rows).Nodup ∧
    (extract_movements rows).all
      (fun x => decide (10 < x.length) && !unwanted x) = true ∧
    extract_movements rows = extract_movements (rows.take 140) := by
  refine ⟨?_, ?_, ?_, ?_⟩
  · simp [extract_movements, List.length_take]
  · exact (List.take_sublist _ _).nodup (movFilter_nodup _ [])
  · rw [List.all_eq_true]
    intro x hx
    have hm : x ∈ movFilter [] (rows.take 140) := List.take_subset _ _ hx
    obtain ⟨-, hlen, hunw⟩ := movFilter_mem _ [] x hm
    simp [hlen, hunw]
  · simp [extract_movements, List.take_take]

/-- Claim C5: with declared kind CPF, validation succeeds exactly when the
stripped digits number 11, yielding those same digits with kind CPF, and
fails with HTTP 400 otherwise; with declared kind CNPJ it succeeds exactly
when the stripped digits number 14. -/
theorem claim_C5_normalizer (doc tipo : String) :
    (pyUpper (pyStrip tipo) = "CPF" →
      ((sanitize_doc doc).length = 11 →
        consulta_validate doc tipo = .ok (sanitize_doc doc, "CPF")) ∧
      ((sanitize_doc doc).length ≠ 11 →
        consulta_validate doc tipo = .error (400, "CPF inválido (deve ter 11 dígitos)"))) ∧
    (pyUpper (pyStrip tipo) = "CNPJ" →
      ((sanitize_doc doc).length = 14 →
        consulta_validate doc tipo = .ok (sanitize_doc doc, "CNPJ")) ∧
      ((sanitize_doc doc).length ≠ 14 →
        consulta_validate doc tipo = .error (400, "CNPJ inválido (deve ter 14 dígitos)"))) := by
  have hne : ("CPF" : String) ≠ "CNPJ" := by decide
  constructor
  · intro h
    constructor <;> intro hlen <;>
      simp [consulta_validate, h, hlen, hne]
  · intro h
    constructor <;> intro hlen <;>
      simp [consulta_validate, h, hlen, hne]

/-- Witness for C5 at concrete inputs: an 11-digit CPF and a 14-digit CNPJ
are accepted with their digits; a 10-digit CPF and a 12-digit CNPJ are
rejected with HTTP 400. -/
theorem claim_C5_normalizer_witness :
    consulta_validate "123.456.789-01" "cpf" = .ok ("12345678901", "CPF") ∧
    consulta_validate "1234567890" "cpf" =
      .error (400, "CPF inválido (deve ter 11 dígitos)") ∧
    consulta_validate "12.345.678/0001-95" "cnpj" = .ok ("12345678000195", "CNPJ") ∧
    consulta_validate "123456789012" "cnpj" =
      .error (400, "CNPJ inválido (deve ter 14 dígitos)") :=
  ⟨((claim_C5_normalizer "123.456.789-01" "cpf").1 (by decide)).1 (by decide),
   ((claim_C5_normalizer "1234567890" "cpf").1 (by decide)).2 (by decide),
   ((claim_C5_normalizer "12.345.678/0001-95" "cnpj").2 (by decide)).1 (by decide),
   ((claim_C5_normalizer "123456789012" "cnpj").2 (by decide)).2 (by decide)⟩

/-- Counterexample to claim C6: the endpoint never infers the kind from the
digit count.  For the 11-digit input `"12345678901"` with an undeclared
(empty) kind, the claim predicts a successful CPF normalization, but the
code rejects the request with HTTP 400 "Tipo inválido". -/
theorem claim_C6_counterexample :
    consulta_validate "12345678901" "" = .error (400, "Tipo inválido (use cpf ou cnpj)") ∧
    (sanitize_doc "12345678901").length = 11 ∧
    consulta_validate "12345678901" "" ≠ .ok ("12345678901", "CPF") := by
  refine ⟨rfl, by decide, ?_⟩
  intro h
  rw [show consulta_validate "12345678901" "" =
    .error (400, "Tipo inválido (use cpf ou cnpj)") from rfl] at h
  exact Except.noConfusion h

/-- Claim C6 (amended): the kind is a required parameter and is never
inferred from the digit count: whenever the trimmed `tipo` is not `cpf` or
`cnpj` (case-insensitively) — in particular when it is empty — the request
is rejected with HTTP 400 "Tipo inválido (use cpf ou cnpj)", regardless of
how many digits the document has. -/
theorem claim_C6_amended (doc tipo : String)
    (h1 : pyUpper (pyStrip tipo) ≠ "CPF") (h2 : pyUpper (pyStrip tipo) ≠ "CNPJ")
    (h3 : pyLower (pyStrip tipo) ≠ "cpf") (h4 : pyLower (pyStrip tipo) ≠ "cnpj") :
    consulta_validate doc tipo = .error (400, "Tipo inválido (use cpf ou cnpj)") := by
  simp [consulta_validate, h1, h2, h3, h4]

/-- Witness for the amended C6 at a concrete input: an 11-digit document
with an empty kind is rejected. -/
theorem claim_C6_amended_witness :
    consulta_validate "12345678901" "" = .error (400, "Tipo inválido (use cpf ou cnpj)") :=
  claim_C6_amended "12345678901" "" (by decide) (by decide) (by decide) (by decide)

/-- Counterexample to claim C8: the extraction heuristic does not recognize
a `key - value` dash split.  On the detail text "Assunto - Cobrança" followed
by "Juiz Fulano", the claim predicts the subject "Cobrança" (the dash-split
value), but the code takes the following line "Juiz Fulano". -/
theorem claim_C8_counterexample :
    (extract_metadata "Assunto - Cobrança\nJuiz Fulano").assunto = some "Juiz Fulano" ∧
    (extract_metadata "Assunto - Cobrança\nJuiz Fulano").assunto ≠ some "Cobrança" := by
  decide

/-- Claim C8 (amended): for each metadata label the heuristic scans the
normalized non-blank lines for a case-insensitive keyword match; only a
`key: value` colon split with a non-empty stripped value is recognized (a
`key - value` dash line is not split); when the colon value is absent,
empty, or matches the noise pattern, the line following the match is taken
instead when present and not noisy, and otherwise the scan continues at
later matching lines; the noise pattern rejects the line
"Documentos juntados em 01/01/2024". -/
theorem claim_C8_amended (keys : List String) (ln nxt : String) (rest : List String)
    (hmatch : keyMatches keys ln = true) :
    unwanted "Documentos juntados em 01/01/2024" = true ∧
    (∀ v : String, colonValue ln = some v → unwanted v = false →
      meta_find keys (ln :: nxt :: rest) = some v) ∧
    (colonValue ln = none → unwanted nxt = false →
      meta_find keys (ln :: nxt :: rest) = some nxt) ∧
    (colonValue ln = none → unwanted nxt = true →
      meta_find keys (ln :: nxt :: rest) = meta_find keys (nxt :: rest)) := by
  refine ⟨by decide, ?_, ?_, ?_⟩
  · intro v hv hnv
    simp [meta_find, hmatch, hv, hnv]
  · intro hv hn
    simp [meta_find, hmatch, hv, hn]
  · intro hv hn
    simp [meta_find, hmatch, hv, hn]

/-- Witness for the amended C8 at concrete inputs: a colon line yields its
value, a dash line yields the following line, and the noise pattern matches
the attachment notice. -/
theorem claim_C8_amended_witness :
    unwanted "Documentos juntados em 01/01/2024" = true ∧
    meta_find ["assunto"] ["Assunto: Cobrança", "Outra linha"] = some "Cobrança" ∧
    meta_find ["assunto"] ["Assunto - Cobrança", "Juiz Fulano"] = some "Juiz Fulano" := by
  have h1 := claim_C8_amended ["assunto"] "Assunto: Cobrança" "Outra linha" [] (by decide)
  have h2 := claim_C8_amended ["assunto"] "Assunto - Cobrança" "Juiz Fulano" [] (by decide)
  exact ⟨h1.1, h1.2.1 "Cobrança" (by decide) (by decide), h2.2.2.1 (by decide) (by decide)⟩

/-- Counterexample to claim C1: when the CPF/CNPJ input field cannot be
located, `scrape_pje` catches the exception internally, so `consulta`
returns HTTP 200 (an `ok` response whose body carries `erro_interno`) and
*does* write a cache entry for the key — not HTTP 500 with no cache
entry. -/
theorem claim_C1_counterexample :
    (consulta_m [] "12345678901" "CPF" 0 c1Req).1 = Resp.ok c1Result ∧
    cache_get (consulta_m [] "12345678901" "CPF" 0 c1Req).2.1 "12345678901_CPF" 0 =
      some c1Result := by
  refine ⟨by decide, ?_⟩
  have hcache : (consulta_m [] "12345678901" "CPF" 0 c1Req).2.1 =
      [("12345678901_CPF", 0, c1Result)] := by decide
  rw [hcache]
  simp [cache_get, cache_lookup, CACHE_TTL]

/-- Claim C1 (amended): a whole-session failure inside the scraping body
(the input field cannot be located, the form cannot be submitted) is caught
inside `scrape_pje` by its `except Exception` handler: the request is
answered with HTTP 200 whose body records the failure in `erro_interno`,
and this failure result *is* written to the cache.  Only exceptions raised
before the `try` block — browser launch or context creation — propagate to
`consulta` and surface as HTTP 500, and those write no cache entry. -/
theorem claim_C1_amended (c : Cache ScrapeResult) (digits dtype : String) (now : ℚ)
    (benv : BodyEnv) (msgL : String)
    (hmiss : cache_get c (digits ++ "_" ++ dtype) now = none)
    (hin : benv.inputFound1 = false) :
    (consulta_m c digits dtype now ⟨false, ⟨.ok, .ok, false, benv⟩⟩).1 =
      Resp.ok { documento := digits, tipo := dtype, processos := [], aviso_site := none
                erro_interno := some "Input de CPF/CNPJ não encontrado na página." } ∧
    cache_get (consulta_m c digits dtype now ⟨false, ⟨.ok, .ok, false, benv⟩⟩).2.1
        (digits ++ "_" ++ dtype) now =
      some { documento := digits, tipo := dtype, processos := [], aviso_site := none
             erro_interno := some "Input de CPF/CNPJ não encontrado na página." } ∧
    (consulta_m c digits dtype now ⟨false, ⟨.ok, .fails msgL, false, benv⟩⟩).1 =
      Resp.err 500 msgL ∧
    (consulta_m c digits dtype now ⟨false, ⟨.ok, .fails msgL, false, benv⟩⟩).2.1 = c := by
  have hscr : scrape_result_of digits dtype benv =
      { documento := digits, tipo := dtype, processos := [], aviso_site := none
        erro_interno := some "Input de CPF/CNPJ não encontrado na página." } := by
    unfold scrape_result_of scrape_body
    simp [hin]
  refine ⟨?_, ?_, ?_, ?_⟩
  · simp [consulta_m, hmiss, withSlot, scrape_pje_m, tryFinallyM, mseq, stepRun,
      launchB, skipM, closeBrowser, stopPlaywright, acquireSlot, releaseSlot,
      tryBlock, RState.init, hscr]
  · have hrun : (consulta_m c digits dtype now ⟨false, ⟨.ok, .ok, false, benv⟩⟩).2.1 =
        cache_put c (digits ++ "_" ++ dtype) now (scrape_result_of digits dtype benv) := by
      simp [consulta_m, hmiss, withSlot, scrape_pje_m, tryFinallyM, mseq, stepRun,
        launchB, skipM, closeBrowser, stopPlaywright, acquireSlot, releaseSlot,
        tryBlock, RState.init]
    have h300 : (now - now : ℚ) < 300 := by norm_num
    rw [hrun, hscr]
    simp [cache_get, cache_put, cache_lookup, CACHE_TTL, h300]
  · simp [consulta_m, hmiss, withSlot, scrape_pje_m, tryFinallyM, mseq, stepRun,
      launchB, skipM, closeBrowser, stopPlaywright, acquireSlot, releaseSlot,
      tryBlock, RState.init]
  · simp [consulta_m, hmiss, withSlot, scrape_pje_m, tryFinallyM, mseq, stepRun,
      launchB, skipM, closeBrowser, stopPlaywright, acquireSlot, releaseSlot,
      tryBlock, RState.init]

/-- Witness for the amended C1 at concrete inputs: with an empty cache and a
field-never-found environment, the response is HTTP 200 carrying
`erro_interno` and the entry is cached; with a failing context-creation
step, the response is HTTP 500 and the cache is unchanged. -/
theorem claim_C1_amended_witness :
    (consulta_m [] "12345678901" "CPF" 0 ⟨false, ⟨.ok, .ok, false, c1Body⟩⟩).1 =
      Resp.ok c1Result ∧
    (consulta_m [] "12345678901" "CPF" 0 ⟨false, ⟨.ok, .fails "net down", false, c1Body⟩⟩).1 =
      Resp.err 500 "net down" := by
  have h := claim_C1_amended [] "12345678901" "CPF" 0 c1Body "net down" rfl rfl
  exact ⟨h.1, h.2.2.1⟩

/-- Claim C2: on every exit path of a lookup request — success, timeout
(whether the deadline expires while queued for the slot, during browser
launch/context creation, or during the running body), site error, or
internal error — the browser resource and the single concurrency slot are
each released exactly as many times as they were acquired (at most once),
and no terminal classification leaves the slot held or the browser open. -/
theorem claim_C2_resource_release (c : Cache ScrapeResult) (d t : String) (now : ℚ)
    (env : ReqEnv) :
    (consulta_m c d t now env).2.2.slotReleased =
      (consulta_m c d t now env).2.2.slotAcquired ∧
    (consulta_m c d t now env).2.2.browserClosed =
      (consulta_m c d t now env).2.2.browserLaunched ∧
    (consulta_m c d t now env).2.2.slotAcquired ≤ 1 ∧
    (consulta_m c d t now env).2.2.browserLaunched ≤ 1 ∧
    (consulta_m c d t now env).2.2.slotHeld = false ∧
    (consulta_m c d t now env).2.2.browserOpen = false := by
  rcases env with ⟨slotC, ⟨ls, cs, cb, benv⟩⟩
  cases hget : cache_get c (d ++ "_" ++ t) now with
  | some v => simp [consulta_m, hget, RState.init]
  | none =>
    cases slotC <;> cases ls <;> cases cs <;> cases cb <;>
      simp [consulta_m, hget, withSlot, scrape_pje_m, tryFinallyM, mseq, stepRun,
        launchB, skipM, closeBrowser, stopPlaywright, acquireSlot, releaseSlot,
        tryBlock, RState.init]

/-- Claim C3: `asyncio.wait_for` bounds the whole scraping run by a 180-second
wall-clock deadline (within the 180-240 range); when the deadline expires
during the RUNNING phase, the caller receives the distinct gateway-timeout
classification HTTP 504 with a reason message, never an HTTP 200 partial
success, and no cache entry is written. -/
theorem claim_C3_timeout (c : Cache ScrapeResult) (digits dtype : String) (now : ℚ)
    (benv : BodyEnv)
    (hmiss : cache_get c (digits ++ "_" ++ dtype) now = none) :
    WAIT_FOR_TIMEOUT = 180 ∧ 180 ≤ WAIT_FOR_TIMEOUT ∧ WAIT_FOR_TIMEOUT ≤ 240 ∧
    (consulta_m c digits dtype now ⟨false, ⟨.ok, .ok, true, benv⟩⟩).1 =
      Resp.err 504 "Tempo limite excedido (Site do Tribunal lento)" ∧
    (∀ data : ScrapeResult,
      (consulta_m c digits dtype now ⟨false, ⟨.ok, .ok, true, benv⟩⟩).1 ≠ Resp.ok data) ∧
    (consulta_m c digits dtype now ⟨false, ⟨.ok, .ok, true, benv⟩⟩).2.1 = c := by
  have h504 : (consulta_m c digits dtype now ⟨false, ⟨.ok, .ok, true, benv⟩⟩).1 =
      Resp.err 504 "Tempo limite excedido (Site do Tribunal lento)" := by
    simp [consulta_m, hmiss, withSlot, scrape_pje_m, tryFinallyM, mseq, stepRun,
      launchB, skipM, closeBrowser, stopPlaywright, acquireSlot, releaseSlot,
      tryBlock, RState.init]
  refine ⟨rfl, by norm_num [WAIT_FOR_TIMEOUT], by norm_num [WAIT_FOR_TIMEOUT], h504, ?_, ?_⟩
  · intro data h
    rw [h504] at h
    exact Resp.noConfusion h
  · simp [consulta_m, hmiss, withSlot, scrape_pje_m, tryFinallyM, mseq, stepRun,
      launchB, skipM, closeBrowser, stopPlaywright, acquireSlot, releaseSlot,
      tryBlock, RState.init]

/-- Witness for C3 at concrete inputs: with an empty cache, a run whose
deadline expires during the body yields HTTP 504 and leaves the cache
empty. -/
theorem claim_C3_timeout_witness :
    (consulta_m [] "12345678901" "CPF" 0 ⟨false, ⟨.ok, .ok, true, c3Body⟩⟩).1 =
      Resp.err 504 "Tempo limite excedido (Site do Tribunal lento)" ∧
    (consulta_m [] "12345678901" "CPF" 0 ⟨false, ⟨.ok, .ok, true, c3Body⟩⟩).2.1 = [] := by
  have h := claim_C3_timeout [] "12345678901" "CPF" 0 c3Body rfl
  exact ⟨h.2.2.2.1, h.2.2.2.2.2⟩
